import Mathlib

/-
Shallow embedding of the hexgrid module of catan-spectator (src/hexgrid.py).

Coordinates and tile identifiers are Python integers, embedded as Int.
Python dictionaries are embedded as association lists in insertion order;
Python `return None` and fall-off-the-end returns are embedded as `none`;
the one `raise` (in tile_id_from_coord) is embedded as `none` as well, the
doc comment of that definition says so.  Sets returned by the legal_*
functions are embedded as deduplicated lists.
-/

set_option maxRecDepth 40000

namespace Hexgrid

/-- First-match association-list lookup by key, embedding Python dict access
`d[x]` on a dict held as insertion-ordered pairs. -/
def assocLookup {β : Type} (x : Int) : List (Int × β) → Option β
  | [] => none
  | (k, v) :: rest => if x = k then some v else assocLookup x rest

/-- First-match association-list lookup by value, embedding the loop in
tile_id_from_coord that scans `_tile_id_to_coord.items()` comparing values. -/
def assocLookupByValue (x : Int) : List (Int × Int) → Option Int
  | [] => none
  | (k, v) :: rest => if v = x then some k else assocLookupByValue x rest

/-- The canonical 19-entry tile table `_tile_id_to_coord` of hexgrid.py,
in dict insertion order (rows of the board, 3-4-5-4-3). -/
def tileIdCoordPairs : List (Int × Int) :=
  [(1, 0x37), (12, 0x59), (11, 0x7B),
   (2, 0x35), (13, 0x57), (18, 0x79), (10, 0x9B),
   (3, 0x33), (14, 0x55), (19, 0x77), (17, 0x99), (9, 0xBB),
   (4, 0x53), (15, 0x75), (16, 0x97), (8, 0xB9),
   (5, 0x73), (6, 0x95), (7, 0xB7)]

/-- The table `_tile_tile_offsets` of hexgrid.py: tile_coord - tile_coord
deltas to direction labels, in dict insertion order. -/
def tileTileOffsets : List (Int × String) :=
  [(-0x20, "NW"), (-0x22, "W"), (-0x02, "SW"), (0x20, "SE"), (0x22, "E"), (0x02, "NE")]

/-- The table `_tile_node_offsets` of hexgrid.py: node_coord - tile_coord
deltas to direction labels, in dict insertion order. -/
def tileNodeOffsets : List (Int × String) :=
  [(0x01, "N"), (-0x10, "NW"), (-0x01, "SW"), (0x10, "S"), (0x21, "SE"), (0x12, "NE")]

/-- The table `_tile_edge_offsets` of hexgrid.py: edge_coord - tile_coord
deltas to direction labels, in dict insertion order. -/
def tileEdgeOffsets : List (Int × String) :=
  [(-0x10, "NW"), (-0x11, "W"), (-0x01, "SW"), (0x10, "SE"), (0x11, "E"), (0x01, "NE")]

/-- hexgrid.tile_id_to_coord: dict lookup in `_tile_id_to_coord`; on KeyError
the code logs at critical severity and returns -1. -/
def tile_id_to_coord (tile_id : Int) : Int :=
  (assocLookup tile_id tileIdCoordPairs).getD (-1)

/-- hexgrid.tile_id_from_coord: scans `_tile_id_to_coord.items()` and returns
the first identifier whose coordinate matches; if none matches the code
raises an Exception, embedded here as `none`. -/
def tile_id_from_coord (coord : Int) : Option Int :=
  assocLookupByValue coord tileIdCoordPairs

/-- hexgrid.legal_tile_ids: the key set of `_tile_id_to_coord`, embedded as
the key list in insertion order (only membership is used downstream). -/
def legal_tile_ids : List Int :=
  tileIdCoordPairs.map (fun p => p.1)

/-- hexgrid.legal_tile_coords: the value set of `_tile_id_to_coord`, embedded
as the value list in insertion order (only membership is used downstream). -/
def legal_tile_coords : List Int :=
  tileIdCoordPairs.map (fun p => p.2)

/-- Loop body of hexgrid.tile_id_in_direction: iterate over the items of
`_tile_tile_offsets`; on a matching direction whose target coordinate is a
legal tile coordinate, return tile_id_from_coord of that coordinate;
otherwise keep scanning; falling off the loop returns None. -/
def tileIdInDirectionGo (coord_from : Int) (direction : String) :
    List (Int × String) → Option Int
  | [] => none
  | (offset, dirn) :: rest =>
    if dirn = direction then
      if (coord_from + offset) ∈ legal_tile_coords then
        tile_id_from_coord (coord_from + offset)
      else tileIdInDirectionGo coord_from direction rest
    else tileIdInDirectionGo coord_from direction rest

/-- hexgrid.tile_id_in_direction: returns None when there is no tile there. -/
def tile_id_in_direction (from_tile_id : Int) (direction : String) : Option Int :=
  tileIdInDirectionGo (tile_id_to_coord from_tile_id) direction tileTileOffsets

/-- hexgrid.tile_tile_offset_to_direction: dict lookup in `_tile_tile_offsets`;
on KeyError the code logs at critical severity and returns the sentinel
label ZZ. -/
def tile_tile_offset_to_direction (offset : Int) : String :=
  (assocLookup offset tileTileOffsets).getD "ZZ"

/-- hexgrid.tile_node_offset_to_direction: dict lookup in `_tile_node_offsets`;
on KeyError the code logs at critical severity and returns the sentinel
label ZZ. -/
def tile_node_offset_to_direction (offset : Int) : String :=
  (assocLookup offset tileNodeOffsets).getD "ZZ"

/-- hexgrid.tile_edge_offset_to_direction: dict lookup in `_tile_edge_offsets`;
on KeyError the code logs at critical severity and returns the sentinel
label ZZ. -/
def tile_edge_offset_to_direction (offset : Int) : String :=
  (assocLookup offset tileEdgeOffsets).getD "ZZ"

/-- hexgrid.direction_to_tile: direction of the offset between the two tile
coordinates. -/
def direction_to_tile (from_tile_id to_tile_id : Int) : String :=
  tile_tile_offset_to_direction (tile_id_to_coord to_tile_id - tile_id_to_coord from_tile_id)

/-- hexgrid.edges_touching_tile: the tile coordinate plus each key of
`_tile_edge_offsets`, in table order. -/
def edges_touching_tile (tile_id : Int) : List Int :=
  tileEdgeOffsets.map (fun p => tile_id_to_coord tile_id + p.1)

/-- hexgrid.nodes_touching_tile: the tile coordinate plus each key of
`_tile_node_offsets`, in table order. -/
def nodes_touching_tile (tile_id : Int) : List Int :=
  tileNodeOffsets.map (fun p => tile_id_to_coord tile_id + p.1)

/-- hexgrid.coastal_edges: the edges touching the tile whose direction from
the tile has no tile in it. -/
def coastal_edges (tile_id : Int) : List Int :=
  (edges_touching_tile tile_id).filter (fun edge_coord =>
    (tile_id_in_direction tile_id
      (tile_edge_offset_to_direction (edge_coord - tile_id_to_coord tile_id))).isNone)

/-- hexgrid.coastal_tile_ids: the legal tile identifiers with at least one
coastal edge. -/
def coastal_tile_ids : List Int :=
  legal_tile_ids.filter (fun tid => 0 < (coastal_edges tid).length)

/-- hexgrid.nearest_tile_to_node_using_tiles: first tile in the candidate
list whose offset from the node is a key of `_tile_node_offsets`; the Python
loop falls off the end (returning None) when no candidate matches. -/
def nearest_tile_to_node_using_tiles : List Int → Int → Option Int
  | [], _ => none
  | tile_id :: rest, node_coord =>
    if (node_coord - tile_id_to_coord tile_id) ∈ tileNodeOffsets.map (fun p => p.1) then
      some tile_id
    else nearest_tile_to_node_using_tiles rest node_coord

/-- hexgrid.nearest_tile_to_node: wrapper over all legal tile identifiers. -/
def nearest_tile_to_node (node_coord : Int) : Option Int :=
  nearest_tile_to_node_using_tiles legal_tile_ids node_coord

/-- hexgrid.nearest_tile_to_edge_using_tiles: first tile in the candidate
list whose offset from the edge is a key of `_tile_edge_offsets`; the Python
loop falls off the end (returning None) when no candidate matches. -/
def nearest_tile_to_edge_using_tiles : List Int → Int → Option Int
  | [], _ => none
  | tile_id :: rest, edge_coord =>
    if (edge_coord - tile_id_to_coord tile_id) ∈ tileEdgeOffsets.map (fun p => p.1) then
      some tile_id
    else nearest_tile_to_edge_using_tiles rest edge_coord

/-- hexgrid.nearest_tile_to_edge: wrapper over all legal tile identifiers. -/
def nearest_tile_to_edge (edge_coord : Int) : Option Int :=
  nearest_tile_to_edge_using_tiles legal_tile_ids edge_coord

/-- hexgrid.legal_edge_coords: the set of edges touching any legal tile,
embedded as the deduplicated list of the generated coordinates. -/
def legal_edge_coords : List Int :=
  (legal_tile_ids.flatMap edges_touching_tile).dedup

/-- hexgrid.legal_node_coords: the set of nodes touching any legal tile,
embedded as the deduplicated list of the generated coordinates. -/
def legal_node_coords : List Int :=
  (legal_tile_ids.flatMap nodes_touching_tile).dedup

/-- Opposite direction pairing stated by the spec for adjacency symmetry:
NW/SE, W/E, SW/NE. -/
def opposite_direction (d : String) : String :=
  if d = "NW" then "SE"
  else if d = "SE" then "NW"
  else if d = "W" then "E"
  else if d = "E" then "W"
  else if d = "SW" then "NE"
  else if d = "NE" then "SW"
  else "ZZ"

/-- Key-wise lookup misses when the key differs from every key of the list. -/
lemma assocLookup_eq_none {β : Type} {x : Int} {l : List (Int × β)}
    (h : ∀ p ∈ l, x ≠ p.1) : assocLookup x l = none := by
  induction l with
  | nil => rfl
  | cons p rest ih =>
    obtain ⟨k, v⟩ := p
    simp only [assocLookup]
    rw [if_neg (h (k, v) (by simp))]
    exact ih (fun q hq => h q (by simp [hq]))

/-- Value-wise lookup misses when the value differs from every value of the
list. -/
lemma assocLookupByValue_eq_none {x : Int} {l : List (Int × Int)}
    (h : ∀ p ∈ l, x ≠ p.2) : assocLookupByValue x l = none := by
  induction l with
  | nil => rfl
  | cons p rest ih =>
    obtain ⟨k, v⟩ := p
    simp only [assocLookupByValue]
    rw [if_neg (fun h' => h (k, v) (by simp) h'.symm)]
    exact ih (fun q hq => h q (by simp [hq]))

/-- Membership outside the mapped key list gives key-wise disequality. -/
lemma not_mem_keys {β : Type} {x : Int} {l : List (Int × β)}
    (h : x ∉ l.map (fun p => p.1)) : ∀ p ∈ l, x ≠ p.1 :=
  fun p hp h' => h (by rw [h']; exact List.mem_map_of_mem _ hp)

/-- Every key of the canonical tile table lies in [1, 19]. -/
lemma tileIdCoordPairs_key_bounds : ∀ p ∈ tileIdCoordPairs, 1 ≤ p.1 ∧ p.1 ≤ 19 := by
  decide

/-- tile_id_to_coord returns the sentinel -1 on an identifier outside the
canonical table. -/
lemma tile_id_to_coord_of_invalid {id : Int} (h : id < 1 ∨ 19 < id) :
    tile_id_to_coord id = -1 := by
  unfold tile_id_to_coord
  rw [assocLookup_eq_none]
  · rfl
  · intro p hp
    have := tileIdCoordPairs_key_bounds p hp
    omega

/-- tile_id_from_coord raises (embedded as none) on a coordinate outside the
legal tile coordinates. -/
lemma tile_id_from_coord_of_invalid {c : Int} (h : c ∉ legal_tile_coords) :
    tile_id_from_coord c = none := by
  unfold tile_id_from_coord
  apply assocLookupByValue_eq_none
  intro p hp h'
  apply h
  rw [h']
  exact List.mem_map_of_mem _ hp

/-- Nearest-tile node scan returns none when no candidate tile is adjacent. -/
lemma nearest_node_scan_none (tids : List Int) (coord : Int)
    (h : ∀ t ∈ tids, (coord - tile_id_to_coord t) ∉ tileNodeOffsets.map (fun p => p.1)) :
    nearest_tile_to_node_using_tiles tids coord = none := by
  induction tids with
  | nil => rfl
  | cons t rest ih =>
    simp only [nearest_tile_to_node_using_tiles]
    rw [if_neg (h t (by simp))]
    exact ih (fun q hq => h q (by simp [hq]))

/-- Nearest-tile edge scan returns none when no candidate tile is adjacent. -/
lemma nearest_edge_scan_none (tids : List Int) (coord : Int)
    (h : ∀ t ∈ tids, (coord - tile_id_to_coord t) ∉ tileEdgeOffsets.map (fun p => p.1)) :
    nearest_tile_to_edge_using_tiles tids coord = none := by
  induction tids with
  | nil => rfl
  | cons t rest ih =>
    simp only [nearest_tile_to_edge_using_tiles]
    rw [if_neg (h t (by simp))]
    exact ih (fun q hq => h q (by simp [hq]))

/-- Claim C1: for every tile identifier id in [1,19],
tile_id_from_coord (tile_id_to_coord id) = some id, and the canonical
19-entry tile table is a bijection between identifiers and coordinates
(the reverse composite is the identity on the legal tile coordinates). -/
theorem tile_table_roundtrip (id : Int) (h1 : 1 ≤ id) (h2 : id ≤ 19) :
    tile_id_from_coord (tile_id_to_coord id) = some id ∧
    ∀ c ∈ legal_tile_coords, (tile_id_from_coord c).map tile_id_to_coord = some c := by
  constructor
  · interval_cases id <;> decide
  · decide

/-- Witness for claim C1 at identifier 7. -/
theorem tile_table_roundtrip_witness :
    tile_id_from_coord (tile_id_to_coord 7) = some 7 :=
  (tile_table_roundtrip 7 (by decide) (by decide)).1

/-- Claim C2: the legal tile coordinate set has exactly 19 elements, the
legal node coordinate set 54, and the legal edge coordinate set 72. -/
theorem legal_coord_cardinalities :
    legal_tile_coords.dedup.length = 19 ∧
    legal_node_coords.length = 54 ∧
    legal_edge_coords.length = 72 := by
  decide

/-- Claim C3: in the canonical layout, tile 1 (coordinate 0x37) is coastal
and tile 14 (coordinate 0x55) is not: its coastal edge list is empty. -/
theorem coastal_scenario :
    (1 : Int) ∈ coastal_tile_ids ∧
    tile_id_to_coord 1 = 0x37 ∧
    (14 : Int) ∉ coastal_tile_ids ∧
    tile_id_to_coord 14 = 0x55 ∧
    coastal_edges 14 = [] := by
  decide

/-- Claim C4: for every pair of adjacent legal tiles (a, b) — their
coordinate difference is one of the six tile-tile deltas — the direction
from b to a is the opposite of the direction from a to b, and following the
direction from a reaches b. -/
theorem adjacency_symmetry :
    ∀ a ∈ legal_tile_ids, ∀ b ∈ legal_tile_ids,
      (tile_id_to_coord b - tile_id_to_coord a) ∈ tileTileOffsets.map (fun p => p.1) →
      direction_to_tile b a = opposite_direction (direction_to_tile a b) ∧
      tile_id_in_direction a (direction_to_tile a b) = some b := by
  decide

/-- Witness for claim C4 at the adjacent pair (1, 2). -/
theorem adjacency_symmetry_witness :
    direction_to_tile 2 1 = opposite_direction (direction_to_tile 1 2) ∧
    tile_id_in_direction 1 (direction_to_tile 1 2) = some 2 :=
  adjacency_symmetry 1 (by decide) 2 (by decide) (by decide)

/-- Claim C5: for every legal tile identifier t and every entry (delta, d) of
the tile-tile table, tile_id_in_direction t d returns the identifier owning
coordinate tile_id_to_coord t + delta when that coordinate is legal, and the
normal value none when it is not. -/
theorem tile_id_in_direction_spec :
    ∀ t ∈ legal_tile_ids, ∀ p ∈ tileTileOffsets,
      tile_id_in_direction t p.2 =
        if (tile_id_to_coord t + p.1) ∈ legal_tile_coords then
          tile_id_from_coord (tile_id_to_coord t + p.1)
        else none := by
  decide

/-- Witness for claim C5 at tile 1 and the NW entry of the tile-tile table. -/
theorem tile_id_in_direction_spec_witness :
    tile_id_in_direction 1 "NW" =
      if (tile_id_to_coord 1 + -0x20) ∈ legal_tile_coords then
        tile_id_from_coord (tile_id_to_coord 1 + -0x20)
      else none :=
  tile_id_in_direction_spec 1 (by decide) (-0x20, "NW") (by decide)

/-- Claim C6: each offset-to-direction function maps every key of its table
to the direction label paired with it, maps every offset outside its table to the
sentinel label ZZ, and ZZ differs from every direction label of every
table. -/
theorem offset_tables_spec :
    (∀ p ∈ tileTileOffsets, tile_tile_offset_to_direction p.1 = p.2) ∧
    (∀ p ∈ tileNodeOffsets, tile_node_offset_to_direction p.1 = p.2) ∧
    (∀ p ∈ tileEdgeOffsets, tile_edge_offset_to_direction p.1 = p.2) ∧
    (∀ off : Int, off ∉ tileTileOffsets.map (fun p => p.1) →
      tile_tile_offset_to_direction off = "ZZ") ∧
    (∀ off : Int, off ∉ tileNodeOffsets.map (fun p => p.1) →
      tile_node_offset_to_direction off = "ZZ") ∧
    (∀ off : Int, off ∉ tileEdgeOffsets.map (fun p => p.1) →
      tile_edge_offset_to_direction off = "ZZ") ∧
    (∀ p ∈ tileTileOffsets, p.2 ≠ "ZZ") ∧
    (∀ p ∈ tileNodeOffsets, p.2 ≠ "ZZ") ∧
    (∀ p ∈ tileEdgeOffsets, p.2 ≠ "ZZ") := by
  refine ⟨by decide, by decide, by decide, ?_, ?_, ?_, by decide, by decide, by decide⟩
  · intro off hoff
    unfold tile_tile_offset_to_direction
    rw [assocLookup_eq_none (not_mem_keys hoff)]
    rfl
  · intro off hoff
    unfold tile_node_offset_to_direction
    rw [assocLookup_eq_none (not_mem_keys hoff)]
    rfl
  · intro off hoff
    unfold tile_edge_offset_to_direction
    rw [assocLookup_eq_none (not_mem_keys hoff)]
    rfl

/-- Witness for claim C6: the tile-tile function at the unknown offset 0. -/
theorem offset_tables_spec_witness :
    tile_tile_offset_to_direction 0 = "ZZ" :=
  offset_tables_spec.2.2.2.1 0 (by decide)

/-- Claim C7: when no candidate tile identifier gives a coordinate
difference that is a key of the relevant topology table, the nearest-tile
lookups return none and never return a tile identifier. -/
theorem nearest_tile_not_found (coord : Int)
    (hn : ∀ t ∈ legal_tile_ids,
      (coord - tile_id_to_coord t) ∉ tileNodeOffsets.map (fun p => p.1))
    (he : ∀ t ∈ legal_tile_ids,
      (coord - tile_id_to_coord t) ∉ tileEdgeOffsets.map (fun p => p.1)) :
    nearest_tile_to_node coord = none ∧ nearest_tile_to_edge coord = none :=
  ⟨nearest_node_scan_none _ _ hn, nearest_edge_scan_none _ _ he⟩

/-- Witness for claim C7 at the far-off-board coordinate 0x1000. -/
theorem nearest_tile_not_found_witness :
    nearest_tile_to_node 0x1000 = none ∧ nearest_tile_to_edge 0x1000 = none :=
  nearest_tile_not_found 0x1000 (by decide) (by decide)

/-- Claim C8 counterexample: at identifier 20 (outside [1,19]),
tile_id_to_coord does not signal an error: it returns the placeholder
coordinate -1, which is not a legal tile coordinate. -/
theorem tile_id_to_coord_placeholder_at_20 :
    tile_id_to_coord 20 = -1 ∧ (-1 : Int) ∉ legal_tile_coords := by
  decide

/-- Claim C8 (amended): for every identifier outside [1,19],
tile_id_to_coord logs and returns the sentinel coordinate -1 (not a legal
tile coordinate) rather than signalling an error; for every coordinate not
among the 19 legal tile coordinates, tile_id_from_coord signals an
invalid-coordinate error (it raises; embedded as none). -/
theorem tile_table_invalid_lookup (id c : Int) (hid : id < 1 ∨ 19 < id)
    (hc : c ∉ legal_tile_coords) :
    tile_id_to_coord id = -1 ∧ (-1 : Int) ∉ legal_tile_coords ∧
    tile_id_from_coord c = none :=
  ⟨tile_id_to_coord_of_invalid hid, by decide, tile_id_from_coord_of_invalid hc⟩

/-- Witness for the amended claim C8 at identifier 0 and coordinate 5. -/
theorem tile_table_invalid_lookup_witness :
    tile_id_to_coord 0 = -1 ∧ (-1 : Int) ∉ legal_tile_coords ∧
    tile_id_from_coord 5 = none :=
  tile_table_invalid_lookup 0 5 (by decide) (by decide)

/-- Claim C9: the coastal tiles are exactly the twelve outer-ring tiles with
identifiers 1 through 12: every tile with identifier at most 12 has at least
one coastal edge, and every tile with identifier 13 through 19 has a tile in
each of the six directions and an empty coastal edge list. -/
theorem coastal_ring :
    (∀ tid ∈ legal_tile_ids, (tid ∈ coastal_tile_ids ↔ tid ≤ 12)) ∧
    (∀ tid ∈ legal_tile_ids, tid ≤ 12 → 0 < (coastal_edges tid).length) ∧
    (∀ tid ∈ legal_tile_ids, 13 ≤ tid → coastal_edges tid = [] ∧
      ∀ p ∈ tileTileOffsets, (tile_id_in_direction tid p.2).isSome = true) ∧
    coastal_tile_ids.length = 12 := by
  decide

/-- Witness for claim C9 at tile 1. -/
theorem coastal_ring_witness :
    (1 : Int) ∈ coastal_tile_ids ↔ (1 : Int) ≤ 12 :=
  coastal_ring.1 1 (by decide)

/-- Claim C10: for every identifier outside [1,19] and each of the six
tile-tile direction labels, tile_id_in_direction returns none (no
exception): the sentinel coordinate -1 plus any tile-tile delta is never a
legal tile coordinate. -/
theorem tile_id_in_direction_invalid_id (id : Int) (h : id < 1 ∨ 19 < id) :
    (∀ d ∈ ["NW", "W", "SW", "SE", "E", "NE"], tile_id_in_direction id d = none) ∧
    (∀ p ∈ tileTileOffsets, (-1 + p.1) ∉ legal_tile_coords) := by
  constructor
  · intro d hd
    unfold tile_id_in_direction
    rw [tile_id_to_coord_of_invalid h]
    fin_cases hd <;> decide
  · decide

/-- Witness for claim C10 at identifier 20 and direction NW. -/
theorem tile_id_in_direction_invalid_id_witness :
    tile_id_in_direction 20 "NW" = none :=
  (tile_id_in_direction_invalid_id 20 (by decide)).1 "NW" (by decide)

end Hexgrid
